import Mathlib

/-!
Verification development for `librootjavadaemon`'s native helper
(`src/librootjavadaemon/src/main/jni/daemonize.cpp`).

The C file has three functions:

* `sleep_ms(ms)` — a millisecond sleep built on `nanosleep`, returning the
  (clamped) remaining duration when interrupted and `0` on completion;
* `fork_daemon(returnParent)` — double-fork daemonization: the first child
  rebinds the three standard descriptors, calls `setsid`, forks again and
  exits; the parent waits for the first child and either exits or returns;
* `main` — calls `fork_daemon(0)`; in the twice-forked child it retries
  `execv(argv[1], &argv[1])` up to 16 times with a 16 ms sleep after each
  failed attempt, then exits with failure.

The OS is modelled explicitly: descriptor tables as association lists with
POSIX lowest-free allocation for `open`, `fork`/`execv`/`nanosleep` outcomes
as oracle parameters, and `waitpid` results as an event trace.  All machine
integers in the program stay far from overflow, so `Nat`/`Int` model them
directly (C integer division on the non-negative values involved agrees
with `Nat` division).
-/

namespace Daemonize

/-! ### `sleep_ms` (daemonize.cpp lines 34-44) -/

/-- `struct timespec`: seconds and nanoseconds.  In every use in this
program both fields are non-negative, so they are modelled as `Nat`. -/
structure Timespec where
  tv_sec : Nat
  tv_nsec : Nat
deriving DecidableEq, Repr

/-- `ts.tv_sec = ms / 1000; ts.tv_nsec = (ms % 1000) * 1000000` — the
request `sleep_ms` builds from its millisecond argument. -/
def msToTs (ms : Nat) : Timespec :=
  ⟨ms / 1000, (ms % 1000) * 1000000⟩

/-- Whole milliseconds represented by a timespec, as `sleep_ms` computes it:
`ts.tv_sec * 1000 + ts.tv_nsec / 1000000`. -/
def tsMs (t : Timespec) : Nat :=
  t.tv_sec * 1000 + t.tv_nsec / 1000000

/-- Oracle for one `nanosleep` call: either the sleep ran to completion, or
a signal interrupted it after `elapsedMs` of the request had elapsed
(`nanosleep` then fails with `EINTR`). -/
inductive SleepOutcome
  | completed
  | interrupted (elapsedMs : Nat)
deriving DecidableEq, Repr

/-- `nanosleep(&ts, &ts)`: returns the C return value and the timespec
after the call.  On completion it returns `0` and leaves the request
untouched; on `EINTR` it returns `-1` and writes the remaining time
(request minus elapsed) back into the timespec. -/
def nanosleepModel (req : Timespec) (b : SleepOutcome) : Int × Timespec :=
  match b with
  | SleepOutcome.completed => (0, req)
  | SleepOutcome.interrupted t => (-1, msToTs (tsMs req - t))

/-- `sleep_ms` (lines 34-44): build the request, call `nanosleep`; if it
was interrupted (`-1`/`EINTR`), recover the remaining milliseconds from
the written-back timespec, clamping the result up to at least 1; otherwise
report completion with 0. -/
def sleep_ms (ms : Nat) (b : SleepOutcome) : Nat :=
  let ts := msToTs ms
  let r := nanosleepModel ts b
  if r.1 = -1 then
    let ret := r.2.tv_sec * 1000 + r.2.tv_nsec / 1000000
    if ret < 1 then 1 else ret
  else 0

/-! ### Descriptor tables (fork_daemon's first-child phase, lines 50-59) -/

/-- What an open descriptor can refer to in this model: the launching
process's terminal streams, the null device, or anything else. -/
inductive Res
  | terminalIn
  | terminalOut
  | terminalErr
  | devnull
  | other (n : Nat)
deriving DecidableEq, Repr

/-- A descriptor table: an association list from descriptor numbers to
resources.  Earlier entries shadow later ones (and `closeFd` removes every
entry for a descriptor, so shadowing never actually arises). -/
abbrev FdTable := List (Nat × Res)

/-- The resource a descriptor currently refers to, if open. -/
def lookupFd (t : FdTable) (fd : Nat) : Option Res :=
  match t with
  | [] => none
  | (f, r) :: rest => if f = fd then some r else lookupFd rest fd

/-- `close(fd)`: remove the descriptor from the table. -/
def closeFd (t : FdTable) (fd : Nat) : FdTable :=
  t.filter (fun p => p.1 != fd)

/-- The descriptor numbers currently open. -/
def usedFds (t : FdTable) : List Nat :=
  t.map Prod.fst

/-- POSIX `open` allocates the lowest-numbered free descriptor; with `n`
descriptors open some number in `0..n` is free. -/
def lowestFree (t : FdTable) : Nat :=
  match (List.range (t.length + 1)).filter (fun n => !(usedFds t).contains n) with
  | [] => 0
  | n :: _ => n

/-- `open(path, flags)` (succeeding): bind the lowest free descriptor to
the resource, returning the new table and the descriptor. -/
def openFd (t : FdTable) (r : Res) : FdTable × Nat :=
  let fd := lowestFree t
  ((fd, r) :: t, fd)

/-- `dup2(src, dst)`: if the two are equal, do nothing; otherwise close
`dst` and make it refer to whatever `src` refers to (no effect when `src`
is not open — the call would fail with `EBADF`). -/
def dup2fd (t : FdTable) (src dst : Nat) : FdTable :=
  if src = dst then t
  else
    match lookupFd t src with
    | none => t
    | some r => (dst, r) :: closeFd t dst

/-- fork_daemon's first-child descriptor rebinding, lines 50-59:
`close(0); close(1); close(2); devNull = open("/dev/null", O_RDWR);
dup2(devNull, 0); dup2(devNull, 1); dup2(devNull, 2); close(devNull)`. -/
def rebind_stdio (t : FdTable) : FdTable :=
  let t1 := closeFd (closeFd (closeFd t 0) 1) 2
  let p := openFd t1 Res.devnull
  let t2 := p.1
  let devNull := p.2
  let t3 := dup2fd t2 devNull 0
  let t4 := dup2fd t3 devNull 1
  let t5 := dup2fd t4 devNull 2
  closeFd t5 devNull

/-- A launching process's initial table: descriptors 0, 1 and 2 bound to
the terminal. -/
def initTable : FdTable :=
  [(0, Res.terminalIn), (1, Res.terminalOut), (2, Res.terminalErr)]

/-! ### Process model for `fork_daemon` (lines 48-88) and `main` (91-104) -/

/-- How a process's run through this code ends: `exit code` is an
OS-level `exit(code)`; `ret v` means the function returned `v` to its
caller inside the same process; `replaced` means `execv` succeeded and the
process image was replaced (the call never returns); `hang` means the run
did not finish within the supplied oracle events (the wait loop keeps
spinning). -/
inductive ProcRes
  | exit (code : Nat)
  | ret (v : Int)
  | replaced
  | hang
deriving DecidableEq, Repr

/-- Outcome of one `fork()` call for the forking process: a positive child
pid on success, or failure (`-1`). -/
inductive ForkR
  | success (pid : Nat)
  | failure
deriving DecidableEq, Repr

/-- Status classes `waitpid` can report (the `W...` macros). -/
inductive WStat
  | exited
  | signaled
  | stopped
  | continued
deriving DecidableEq, Repr

/-- One `waitpid(child, &status, 0)` result: either a pid together with
its status class, or a `-1` error (e.g. `ECHILD` once the child has
already been reaped). -/
inductive WaitEv
  | ret (pid : Nat) (st : WStat)
  | err
deriving DecidableEq, Repr

/-- `WIFEXITED(status)`: true exactly for a normal-exit status. -/
def wifexited : WStat → Bool
  | WStat.exited => true
  | _ => false

/-- The parent's wait loop (lines 78-84) run over a finite prefix of
`waitpid` results: `true` iff the loop body reaches `break` — that is,
some result is the child's pid with `WIFEXITED` true — within that
prefix. -/
def wait_loop (child : Nat) : List WaitEv → Bool
  | [] => false
  | WaitEv.err :: rest => wait_loop child rest
  | WaitEv.ret p st :: rest =>
      if p == child && wifexited st then true else wait_loop child rest

/-- Whether the event prefix reports the child's OS-level termination
(normal exit or death by signal). -/
def terminatedIn (child : Nat) (evs : List WaitEv) : Bool :=
  evs.any fun e =>
    match e with
    | WaitEv.ret p WStat.exited => p == child
    | WaitEv.ret p WStat.signaled => p == child
    | _ => false

/-- Syscall-level actions a run records (used to state what a process
does — and does not — perform). -/
inductive Act
  | close (fd : Nat)
  | openNull (fd : Nat)
  | dupfd (src dst : Nat)
  | setsidAct
  | forkAct
  | waitAct
  | execAct (path : Option String) (args : List (Option String))
  | sleepAct (ms : Nat)
deriving DecidableEq, Repr

/-- The first child's actions (lines 50-62): rebind the standard
descriptors, `setsid`, then the second `fork`.  `devNull` is the
descriptor `open` returns. -/
def first_child_acts (t : FdTable) : List Act :=
  let t1 := closeFd (closeFd (closeFd t 0) 1) 2
  let devNull := lowestFree t1
  [Act.close 0, Act.close 1, Act.close 2, Act.openNull devNull,
   Act.dupfd devNull 0, Act.dupfd devNull 1, Act.dupfd devNull 2,
   Act.close devNull, Act.setsidAct, Act.forkAct]

/-- How the first child's run through `fork_daemon` ends (lines 62-70),
as a function of its second `fork`'s outcome: on success it immediately
`exit(EXIT_SUCCESS)`s, on failure `exit(EXIT_FAILURE)`. -/
def first_child_result (fork2 : ForkR) : ProcRes :=
  match fork2 with
  | ForkR.success _ => ProcRes.exit 0
  | ForkR.failure => ProcRes.exit 1

/-- The second child's run through `fork_daemon` (line 64): `fork()`
returned 0, so it returns 0 to `fork_daemon`'s caller. -/
def second_child_result : ProcRes := ProcRes.ret 0

/-- The parent's run through `fork_daemon(returnParent)` (lines 74-87),
as a function of its first `fork`'s outcome and its `waitpid` events:
fork failure returns `-1`; otherwise the wait loop runs and, once it
completes, the parent `exit(EXIT_SUCCESS)`s when `returnParent` is 0 and
returns 1 otherwise. -/
def parent_result (fork1 : ForkR) (evs : List WaitEv) (returnParent : Int) : ProcRes :=
  match fork1 with
  | ForkR.failure => ProcRes.ret (-1)
  | ForkR.success pid =>
      if wait_loop pid evs then
        if returnParent = 0 then ProcRes.exit 0 else ProcRes.ret 1
      else ProcRes.hang

/-! ### The `execv` retry loop in `main` (lines 96-103) -/

/-- A C string pointer: `none` is `NULL`. -/
abbrev CStr := Option String

/-- Oracle-driven `execv` at attempt `i` with target `path`: `ok i` says
whether the OS would let the replacement succeed at that attempt; a
`NULL` path always fails (`EFAULT`). -/
def execv_ok (ok : Nat → Bool) (i : Nat) (path : CStr) : Bool :=
  match path with
  | none => false
  | some _ => ok i

/-- The body of `for (i = 0; i < 16; i++) { execv(...); sleep_ms(16); }`
over an explicit list of loop indices, recording the actions performed:
a successful `execv` ends the run with the image replaced (nothing runs
after it); a failed one is followed by `sleep_ms(16)` and the next
iteration; index exhaustion falls through to `exit(EXIT_FAILURE)`. -/
def retry_list (ok : Nat → Bool) (path : CStr) (args : List CStr) :
    List Nat → List Act × ProcRes
  | [] => ([], ProcRes.exit 1)
  | i :: is =>
      if execv_ok ok i path then ([Act.execAct path args], ProcRes.replaced)
      else
        let p := retry_list ok path args is
        (Act.execAct path args :: Act.sleepAct 16 :: p.1, p.2)

/-- The full retry loop: 16 iterations, indices 0 through 15. -/
def exec_retry (ok : Nat → Bool) (path : CStr) (args : List CStr) :
    List Act × ProcRes :=
  retry_list ok path args (List.range 16)

/-- The C argument vector `main` receives for program arguments `argv`:
the named strings followed by the terminating `NULL` (`argv[argc]`). -/
def cargv (argv : List String) : List CStr :=
  argv.map some ++ [none]

/-- The target path `main` passes to `execv`: `argv[1]`. -/
def main_path (argv : List String) : CStr :=
  (cargv argv).getD 1 none

/-- The argument vector `main` passes to `execv`: `&argv[1]`. -/
def main_args (argv : List String) : List CStr :=
  (cargv argv).drop 1

/-- The detached (second) child's run through `main`'s loop. -/
def main_child (argv : List String) (ok : Nat → Bool) : List Act × ProcRes :=
  exec_retry ok (main_path argv) (main_args argv)

/-- What `main` does with `fork_daemon(0)`'s outcome for a given process
role: a return value of 0 enters the retry loop; any other return value
skips the `if` body and `main` falls off its end, which in C++ is an
implicit `return 0`, so the process exits with status 0; a role whose run
already ended (exit/hang) keeps that outcome. -/
def main_after (r : ProcRes) (childRun : List Act × ProcRes) : List Act × ProcRes :=
  match r with
  | ProcRes.ret v => if v = 0 then childRun else ([], ProcRes.exit 0)
  | r => ([], r)

/-- Number of `execv` attempts in a recorded action list. -/
def countExec (tr : List Act) : Nat :=
  tr.countP fun a =>
    match a with
    | Act.execAct _ _ => true
    | _ => false

/-- Number of sleeps in a recorded action list. -/
def countSleep (tr : List Act) : Nat :=
  tr.countP fun a =>
    match a with
    | Act.sleepAct _ => true
    | _ => false

/-- The action list of a run whose every `execv` fails: `n` failed
attempts, each followed by the 16 ms sleep. -/
def failTrace (path : CStr) (args : List CStr) : Nat → List Act
  | 0 => []
  | n + 1 => Act.execAct path args :: Act.sleepAct 16 :: failTrace path args n

/-- Whether a run outcome is a failure exit (non-zero exit status). -/
def isFailureExit : ProcRes → Bool
  | ProcRes.exit c => c != 0
  | _ => false

/-! ### Helper lemmas -/

/-- Converting `x` milliseconds to a timespec and reading it back as
`sleep_ms` does recovers `x`. -/
theorem tsMs_msToTs (x : Nat) : tsMs (msToTs x) = x := by
  unfold tsMs msToTs
  simp only
  rw [Nat.mul_div_cancel _ (by norm_num : 0 < 1000000)]
  omega

/-- When every attempt's `execv` fails, the loop walks its whole index
list, records the alternating attempt/sleep actions, and exits 1. -/
theorem retry_list_all_fail (ok : Nat → Bool) (path : CStr) (args : List CStr)
    (h : ∀ j, execv_ok ok j path = false) (l : List Nat) :
    retry_list ok path args l = (failTrace path args l.length, ProcRes.exit 1) := by
  induction l with
  | nil => rfl
  | cons i is ih => simp [retry_list, h i, failTrace, ih]

/-- `failTrace` records exactly `n` attempts. -/
theorem countExec_failTrace (path : CStr) (args : List CStr) (n : Nat) :
    countExec (failTrace path args n) = n := by
  induction n with
  | zero => rfl
  | succ m ih => simp [failTrace, countExec, List.countP_cons] at ih ⊢; omega

/-- `failTrace` records exactly `n` sleeps. -/
theorem countSleep_failTrace (path : CStr) (args : List CStr) (n : Nat) :
    countSleep (failTrace path args n) = n := by
  induction n with
  | zero => rfl
  | succ m ih => simp [failTrace, countSleep, List.countP_cons] at ih ⊢; omega

/-- A nonempty all-fail trace ends with the 16 ms sleep: the process
sleeps once more after its last failed attempt. -/
theorem failTrace_getLast (path : CStr) (args : List CStr) (n : Nat) :
    (failTrace path args (n + 1)).getLast? = some (Act.sleepAct 16) := by
  induction n with
  | zero => rfl
  | succ m ih =>
      rw [show failTrace path args (m + 1 + 1)
            = Act.execAct path args :: Act.sleepAct 16 :: failTrace path args (m + 1) from rfl]
      rw [List.getLast?_cons_cons]
      rw [show Act.sleepAct 16 :: failTrace path args (m + 1)
            = Act.sleepAct 16 :: Act.execAct path args :: Act.sleepAct 16 :: failTrace path args m from rfl]
      rw [List.getLast?_cons_cons]
      exact ih

/-! ### Claim theorems -/

/-- C1: the claim says that after the first child's rebinding phase all
three standard descriptors refer to the null device.  The code violates
this: closing 0, 1 and 2 makes descriptor 0 the lowest free one, so
`open("/dev/null")` returns 0, `dup2(0, 0)` is a no-op, and the final
`close(devNull)` closes descriptor 0 itself.  Evaluating the rebinding on
a table whose descriptors 0-2 are bound to the terminal: descriptor 0
ends up closed (not bound to the null device), while 1 and 2 do refer to
the null device. -/
theorem c1_rebind_leaves_stdin_closed :
    lowestFree (closeFd (closeFd (closeFd initTable 0) 1) 2) = 0 ∧
    lookupFd (rebind_stdio initTable) 0 = none ∧
    lookupFd (rebind_stdio initTable) 1 = some Res.devnull ∧
    lookupFd (rebind_stdio initTable) 2 = some Res.devnull := by decide

/-- C2 counterexample: with the first `fork` failing, `fork_daemon`
returns `-1`, `main`'s `if (fork_daemon(0) == 0)` is false, and `main`
falls off its end — the process exits with status 0, not a non-zero
failure status as the claim requires. -/
theorem c2_first_fork_fail_exits_zero :
    main_after (parent_result ForkR.failure [] 0) ([], ProcRes.exit 1)
      = ([], ProcRes.exit 0) ∧
    isFailureExit (main_after (parent_result ForkR.failure [] 0)
      ([], ProcRes.exit 1)).2 = false := by decide

/-- C2 (amended): when the first `fork` fails, `fork_daemon` does surface
the error as a `-1` return to its invoker, for every wait-event prefix;
but `main` never inspects that value, so the process then terminates with
exit status 0 (success), not with a failure status. -/
theorem c2_first_fork_fail_surfaced_then_swallowed (evs : List WaitEv)
    (childRun : List Act × ProcRes) :
    parent_result ForkR.failure evs 0 = ProcRes.ret (-1) ∧
    main_after (parent_result ForkR.failure evs 0) childRun
      = ([], ProcRes.exit 0) := by
  constructor
  · rfl
  · rfl

/-- C2 amended-claim witness: the empty wait trace. -/
theorem c2_first_fork_fail_surfaced_then_swallowed_witness :
    parent_result ForkR.failure [] 0 = ProcRes.ret (-1) ∧
    main_after (parent_result ForkR.failure [] 0) ([], ProcRes.hang)
      = ([], ProcRes.exit 0) :=
  c2_first_fork_fail_surfaced_then_swallowed [] ([], ProcRes.hang)

/-- C3 counterexample: a run in which the child is terminated by a signal
(`waitpid` reports it with `WIFSIGNALED`, after which further calls fail
with `ECHILD`).  The child has reached OS-level termination, yet the wait
loop never completes — refuting "for every run in which the child
terminates, the loop does complete". -/
theorem c3_signal_termination_never_completes :
    terminatedIn 7 [WaitEv.ret 7 WStat.signaled, WaitEv.err, WaitEv.err] = true ∧
    wait_loop 7 [WaitEv.ret 7 WStat.signaled, WaitEv.err, WaitEv.err] = false := by
  decide

/-- C3 (amended): the wait loop completes if and only if `waitpid`
reports the child with `WIFEXITED` true, i.e. iff the child's normal exit
is observed.  In particular no sequence of non-exit events (stops,
continues, signal-termination reports, errors) completes it — but a child
terminated by a signal never completes it either. -/
theorem c3_wait_loop_completes_iff_normal_exit (child : Nat) (evs : List WaitEv) :
    wait_loop child evs = true ↔ WaitEv.ret child WStat.exited ∈ evs := by
  induction evs with
  | nil => simp [wait_loop]
  | cons e rest ih =>
      cases e with
      | err =>
          rw [show wait_loop child (WaitEv.err :: rest) = wait_loop child rest from rfl]
          simp [ih]
      | ret p st =>
          by_cases hp : p = child
          · subst hp
            cases st with
            | exited => simp [wait_loop, wifexited]
            | signaled => simp [wait_loop, wifexited, ih]
            | stopped => simp [wait_loop, wifexited, ih]
            | continued => simp [wait_loop, wifexited, ih]
          · have hb : (p == child) = false := by simp [hp]
            have hne : WaitEv.ret child WStat.exited ≠ WaitEv.ret p st := by
              intro hcontra
              injection hcontra with h1 h2
              exact hp h1.symm
            simp [wait_loop, hb, ih, hne]

/-- C3 amended-claim witness: a child that stops itself before exiting
does not complete the loop early; the loop completes at its exit. -/
theorem c3_wait_loop_completes_iff_normal_exit_witness :
    wait_loop 3 [WaitEv.ret 3 WStat.stopped, WaitEv.ret 3 WStat.exited] = true ∧
    wait_loop 3 [WaitEv.ret 3 WStat.stopped, WaitEv.ret 3 WStat.continued] = false :=
  ⟨(c3_wait_loop_completes_iff_normal_exit 3
      [WaitEv.ret 3 WStat.stopped, WaitEv.ret 3 WStat.exited]).mpr (by decide),
    by
      have hiff := c3_wait_loop_completes_iff_normal_exit 3
        [WaitEv.ret 3 WStat.stopped, WaitEv.ret 3 WStat.continued]
      have hnot : WaitEv.ret 3 WStat.exited
          ∉ [WaitEv.ret 3 WStat.stopped, WaitEv.ret 3 WStat.continued] := by decide
      cases hcase : wait_loop 3 [WaitEv.ret 3 WStat.stopped, WaitEv.ret 3 WStat.continued] with
      | false => rfl
      | true => exact absurd (hiff.mp hcase) hnot⟩

/-- C5: `sleep_ms d`, when `nanosleep` is interrupted after `t` of the
`d` requested milliseconds have elapsed, returns `max 1 (d - t)`; it
returns 0 when the sleep ran to completion, and only then. -/
theorem c5_sleep_ms_interrupted_remainder (d t : Nat) (h : t ≤ d) :
    sleep_ms d (SleepOutcome.interrupted t) = max 1 (d - t) ∧
    sleep_ms d SleepOutcome.completed = 0 ∧
    (∀ b, sleep_ms d b = 0 → b = SleepOutcome.completed) := by
  have key : ∀ t', sleep_ms d (SleepOutcome.interrupted t')
      = max 1 (d - t') := by
    intro t'
    simp only [sleep_ms, nanosleepModel, tsMs, msToTs]
    norm_num
    split <;> omega
  refine ⟨key t, rfl, ?_⟩
  intro b hb
  cases b with
  | completed => rfl
  | interrupted t' =>
      rw [key t'] at hb
      omega

/-- C5 witness: a 30 ms sleep interrupted at 12 ms reports 18 ms
remaining, and a completed one reports 0. -/
theorem c5_sleep_ms_interrupted_remainder_witness :
    12 ≤ 30 ∧
    sleep_ms 30 (SleepOutcome.interrupted 12) = max 1 (30 - 12) ∧
    sleep_ms 30 SleepOutcome.completed = 0 :=
  ⟨by decide, (c5_sleep_ms_interrupted_remainder 30 12 (by decide)).1,
    (c5_sleep_ms_interrupted_remainder 30 12 (by decide)).2.1⟩

/-- C4: on a target for which `execv` always fails, the loop performs
exactly 16 attempts, each failed attempt followed by the 16 ms sleep (the
recorded actions alternate attempt / sleep), and the run ends with
`exit(EXIT_FAILURE)`. -/
theorem c4_always_fail_16_attempts (ok : Nat → Bool) (path : CStr)
    (args : List CStr) (h : ∀ j, execv_ok ok j path = false) :
    exec_retry ok path args = (failTrace path args 16, ProcRes.exit 1) ∧
    countExec (exec_retry ok path args).1 = 16 := by
  have he : exec_retry ok path args = (failTrace path args 16, ProcRes.exit 1) := by
    rw [exec_retry, retry_list_all_fail ok path args h (List.range 16),
      List.length_range]
  exact ⟨he, by rw [he]; exact countExec_failTrace path args 16⟩

/-- C4 witness: a concrete always-failing target. -/
theorem c4_always_fail_16_attempts_witness :
    (∀ j, execv_ok (fun _ => false) j (some "/system/bin/app_process") = false) ∧
    exec_retry (fun _ => false) (some "/system/bin/app_process")
        [some "/system/bin/app_process"]
      = (failTrace (some "/system/bin/app_process")
          [some "/system/bin/app_process"] 16, ProcRes.exit 1) :=
  ⟨fun _ => rfl,
    (c4_always_fail_16_attempts (fun _ => false) (some "/system/bin/app_process")
      [some "/system/bin/app_process"] (fun _ => rfl)).1⟩

/-- C6: on a target whose `execv` fails at attempts 0 and 1 and succeeds
at attempt 2, the loop performs exactly 3 attempts; the run ends with the
process image replaced at the third attempt and nothing recorded after
it — once the replacement succeeds the call never returns. -/
theorem c6_two_failures_then_replaced (ok : Nat → Bool) (path : CStr)
    (args : List CStr) (h0 : execv_ok ok 0 path = false)
    (h1 : execv_ok ok 1 path = false) (h2 : execv_ok ok 2 path = true) :
    exec_retry ok path args
      = ([Act.execAct path args, Act.sleepAct 16, Act.execAct path args,
          Act.sleepAct 16, Act.execAct path args], ProcRes.replaced) ∧
    countExec (exec_retry ok path args).1 = 3 ∧
    (exec_retry ok path args).1.getLast? = some (Act.execAct path args) := by
  have hr : List.range 16 = 0 :: 1 :: 2 :: [3, 4, 5, 6, 7, 8, 9, 10, 11, 12, 13, 14, 15] := by
    decide
  have he : exec_retry ok path args
      = ([Act.execAct path args, Act.sleepAct 16, Act.execAct path args,
          Act.sleepAct 16, Act.execAct path args], ProcRes.replaced) := by
    rw [exec_retry, hr]
    simp [retry_list, h0, h1, h2]
  refine ⟨he, ?_, ?_⟩
  · rw [he]
    simp [countExec, List.countP_cons]
  · rw [he]
    rfl

/-- C6 witness: an oracle that fails exactly twice before succeeding. -/
theorem c6_two_failures_then_replaced_witness :
    execv_ok (fun i => i == 2) 0 (some "/x") = false ∧
    execv_ok (fun i => i == 2) 1 (some "/x") = false ∧
    execv_ok (fun i => i == 2) 2 (some "/x") = true ∧
    exec_retry (fun i => i == 2) (some "/x") [some "/x"]
      = ([Act.execAct (some "/x") [some "/x"], Act.sleepAct 16,
          Act.execAct (some "/x") [some "/x"], Act.sleepAct 16,
          Act.execAct (some "/x") [some "/x"]], ProcRes.replaced) :=
  ⟨rfl, rfl, rfl,
    (c6_two_failures_then_replaced (fun i => i == 2) (some "/x") [some "/x"]
      rfl rfl rfl).1⟩

/-- C7: in the first child, the outcome of the second `fork` fully
determines what happens — on success the first child exits immediately
with status 0 (its recorded actions contain no wait call, so it never
waits on the second child); the second child returns 0 from
`fork_daemon`; on fork failure the first child exits with failure
status 1. -/
theorem c7_second_fork_outcomes (pid : Nat) (t : FdTable) :
    first_child_result (ForkR.success pid) = ProcRes.exit 0 ∧
    Act.waitAct ∉ first_child_acts t ∧
    second_child_result = ProcRes.ret 0 ∧
    first_child_result ForkR.failure = ProcRes.exit 1 := by
  refine ⟨rfl, ?_, rfl, rfl⟩
  simp [first_child_acts]

/-- C7 witness: the claim's conclusions at a concrete pid and table. -/
theorem c7_second_fork_outcomes_witness :
    first_child_result (ForkR.success 5) = ProcRes.exit 0 ∧
    Act.waitAct ∉ first_child_acts initTable ∧
    second_child_result = ProcRes.ret 0 ∧
    first_child_result ForkR.failure = ProcRes.exit 1 :=
  c7_second_fork_outcomes 5 initTable

/-- C8: `fork_daemon` called with `returnParent = 0`, on the parent's
success path (first fork succeeded, wait loop completed), ends in
`exit(EXIT_SUCCESS)` — the caller process terminates and control never
returns to the invoker. -/
theorem c8_no_return_when_returnParent_zero (pid : Nat) (evs : List WaitEv)
    (h : wait_loop pid evs = true) :
    parent_result (ForkR.success pid) evs 0 = ProcRes.exit 0 := by
  simp [parent_result, h]

/-- C8 witness: a run whose wait trace reports the child's exit. -/
theorem c8_no_return_when_returnParent_zero_witness :
    wait_loop 9 [WaitEv.ret 9 WStat.exited] = true ∧
    parent_result (ForkR.success 9) [WaitEv.ret 9 WStat.exited] 0
      = ProcRes.exit 0 :=
  ⟨by decide, c8_no_return_when_returnParent_zero 9 [WaitEv.ret 9 WStat.exited]
    (by decide)⟩

/-- C9: `main` validates nothing: the path handed to `execv` is always
`argv[1]` and the argument vector `&argv[1]` (so the target's argument 0
equals the path); when only one command-line argument is present,
`argv[1]` is the terminating `NULL`, every one of the 16 attempts runs
with a null path and fails, and the process exits with failure status. -/
theorem c9_no_argument_validation (argv : List String) (ok : Nat → Bool)
    (hne : argv ≠ []) :
    (main_args argv).getD 0 none = main_path argv ∧
    (argv.length = 1 →
      main_path argv = none ∧
      main_child argv ok = (failTrace none (main_args argv) 16, ProcRes.exit 1) ∧
      countExec (main_child argv ok).1 = 16) := by
  match argv, hne with
  | a :: rest, _ =>
    constructor
    · cases rest with
      | nil => rfl
      | cons b bs => rfl
    · intro hlen
      have hrest : rest = [] := by
        have hzero : rest.length = 0 := by simpa using hlen
        exact List.length_eq_zero.mp hzero
      subst hrest
      have hp : main_path [a] = none := rfl
      have hargs : main_args [a] = [none] := rfl
      have hfail : ∀ j, execv_ok ok j (main_path [a]) = false := fun _ => rfl
      have he : main_child [a] ok
          = (failTrace none (main_args [a]) 16, ProcRes.exit 1) := by
        rw [main_child, exec_retry, retry_list_all_fail ok (main_path [a])
          (main_args [a]) hfail (List.range 16), List.length_range, hp]
      exact ⟨hp, he, by rw [he, hargs]; exact countExec_failTrace none [none] 16⟩

/-- C9 witness: invoking with a single argument. -/
theorem c9_no_argument_validation_witness :
    (["daemonize"] : List String) ≠ [] ∧
    (List.length ["daemonize"] = 1) ∧
    main_path ["daemonize"] = none ∧
    main_child ["daemonize"] (fun _ => true)
      = (failTrace none (main_args ["daemonize"]) 16, ProcRes.exit 1) :=
  ⟨by decide, rfl,
    ((c9_no_argument_validation ["daemonize"] (fun _ => true) (by decide)).2 rfl).1,
    ((c9_no_argument_validation ["daemonize"] (fun _ => true) (by decide)).2 rfl).2.1⟩

/-- C10: when every attempt fails, the run records 16 sleeps — one after
every failed attempt, including the 16th and last — so the recorded
actions end with a sleep, followed only by the failure exit. -/
theorem c10_sixteen_sleeps_on_exhaustion (ok : Nat → Bool) (path : CStr)
    (args : List CStr) (h : ∀ j, execv_ok ok j path = false) :
    countSleep (exec_retry ok path args).1 = 16 ∧
    (exec_retry ok path args).1.getLast? = some (Act.sleepAct 16) ∧
    (exec_retry ok path args).2 = ProcRes.exit 1 := by
  have he : exec_retry ok path args = (failTrace path args 16, ProcRes.exit 1) := by
    rw [exec_retry, retry_list_all_fail ok path args h (List.range 16),
      List.length_range]
  rw [he]
  exact ⟨countSleep_failTrace path args 16, failTrace_getLast path args 15, rfl⟩

/-- C10 witness: a concrete always-failing target sleeps 16 times. -/
theorem c10_sixteen_sleeps_on_exhaustion_witness :
    (∀ j, execv_ok (fun _ => false) j (some "/x") = false) ∧
    countSleep (exec_retry (fun _ => false) (some "/x") [some "/x"]).1 = 16 ∧
    (exec_retry (fun _ => false) (some "/x") [some "/x"]).1.getLast?
      = some (Act.sleepAct 16) :=
  ⟨fun _ => rfl,
    (c10_sixteen_sleeps_on_exhaustion (fun _ => false) (some "/x") [some "/x"]
      (fun _ => rfl)).1,
    (c10_sixteen_sleeps_on_exhaustion (fun _ => false) (some "/x") [some "/x"]
      (fun _ => rfl)).2.1⟩

end Daemonize
